import Mathlib

/-!
Verification development for the TEN31 Pass API client
(`src/index.ts`, `src/request-behavior.ts`, `src/utils.ts`).

The development shallowly embeds the request/response behaviors of the
library: `RedirectBehavior.getRedirectResponse` (query parsing, targeted
string surgery on the address, history-entry response cache),
`RedirectBehavior.set/getRecoverableState` (session storage),
`RedirectBehavior.call`, `PopupBehavior.call` (message-channel promise
semantics) and `Ten31PassApi.requestGrants` (request conversion).

Modelling conventions:
- JavaScript values are modelled by `JVal`; JSON round-trips through
  `sessionStorage` (`JSON.parse(JSON.stringify _)`) are modelled as the
  identity on the stored mapping, which is exact for JSON-representable
  values.  Floating point numbers are modelled as integers; no claim
  depends on non-integer arithmetic.
- JavaScript objects are association lists with unique keys; property
  assignment keeps the position of an existing key and appends new keys,
  as the spread/assignment operators do (`assocSet`).  The `in` and
  `delete` operators are modelled on own keys (prototype-chain keys such
  as toString are not modelled; no claim depends on them).
- `URLSearchParams` parsing is modelled byte-for-byte for ASCII input:
  split on `&`, drop empty segments, split each segment at the first `=`,
  decode `+` as space and `%XX` hex escapes (invalid escapes are kept
  literally).  Recombination of multi-byte UTF-8 sequences is not
  modelled; every claim input is ASCII.
- The regular expressions appearing in the repository are of the two
  shapes `/^p.+$/` (anchored full match after a literal stem, used for
  required/optional keys, `KeySpec.patt`) and literal replacement
  patterns, which are modelled directly by their matching semantics.
-/

/-- JavaScript/JSON values as used by the library: null, booleans,
numbers, strings, arrays and plain objects (association lists in key
insertion order). -/
inductive JVal where
  | null
  | bool (b : Bool)
  | num (n : Int)
  | str (s : String)
  | arr (elems : List JVal)
  | obj (fields : List (String × JVal))

/-- Truthiness of a JavaScript value (objects and arrays are always
truthy; NaN is not modelled). -/
def JVal.truthy : JVal → Bool
  | .null => false
  | .bool b => b
  | .num n => n != 0
  | .str s => s != ""
  | .arr _ => true
  | .obj _ => true

/-- Tests whether a value is a given string (the `===` comparison of a
value of unknown type against a string constant). -/
def JVal.isStr : JVal → String → Bool
  | .str t, s => t == s
  | _, _ => false

/-- First value stored under a key in an association list
(`object[key]`, returning `none` for undefined). -/
def lookupA {α : Type} (m : List (String × α)) (k : String) : Option α :=
  (m.find? (fun kv => kv.1 == k)).map (fun kv => kv.2)

/-- JavaScript property assignment `object[key] = value` (also the
result of `{...object, [key]: value}`): an existing key keeps its
position and gets the new value, a new key is appended. -/
def assocSet {α : Type} : List (String × α) → String → α → List (String × α)
  | [], k, v => [(k, v)]
  | (k0, v0) :: rest, k, v =>
    if k0 == k then (k, v) :: rest else (k0, v0) :: assocSet rest k v

/-- JavaScript `delete object[key]`; keys are unique in an object built
by the library, so removing every occurrence coincides with removing the
single own property. -/
def eraseKey {α : Type} (m : List (String × α)) (k : String) : List (String × α) :=
  m.filter (fun kv => kv.1 != k)

/-- Key specification accepted by the behaviors: either an exact
string, or a regular expression of the shape `/^p.+$/` as used
throughout the repository (`/^grant-for-app-.+$/`,
`/^grant-for-service-.+$/`), written `KeySpec.patt p`. -/
inductive KeySpec where
  | exact (s : String)
  | patt (p : String)
deriving DecidableEq

/-- Whether a key satisfies a specification.  For a string spec this is
the `===` comparison; for `/^p.+$/` the JavaScript test
`key.match(re)?.[0] === key` holds exactly when the key extends the stem
`p` by at least one character none of which is a newline (`.` does not
match newlines and `$` anchors at the end of input). -/
def KeySpec.matches : KeySpec → String → Bool
  | .exact s, k => s == k
  | .patt p, k =>
    p.toList.isPrefixOf k.toList
      && decide (p.length < k.length)
      && (k.toList.drop p.length).all (fun c => c != '\n')

/-- Printed form of a key specification (`key.toString()` in the
response-identity computation). -/
def KeySpec.print : KeySpec → String
  | .exact s => s
  | .patt p => "/^" ++ p ++ ".+$/"

/-- Hex digit value, used by the percent decoder. -/
def hexVal (c : Char) : Option Nat :=
  if '0' ≤ c ∧ c ≤ '9' then some (c.toNat - '0'.toNat)
  else if 'a' ≤ c ∧ c ≤ 'f' then some (c.toNat - 'a'.toNat + 10)
  else if 'A' ≤ c ∧ c ≤ 'F' then some (c.toNat - 'A'.toNat + 10)
  else none

/-- The `application/x-www-form-urlencoded` decoding applied by
`URLSearchParams` to each key and value: `+` decodes to space, `%XX` to
the byte `XX`, and invalid escapes stay literal.  Exact for ASCII. -/
def formDecode : List Char → List Char
  | [] => []
  | '%' :: a :: b :: rest =>
    match hexVal a, hexVal b with
    | some x, some y => Char.ofNat (16 * x + y) :: formDecode rest
    | _, _ => '%' :: formDecode (a :: b :: rest)
  | '+' :: rest => ' ' :: formDecode rest
  | c :: rest => c :: formDecode rest

/-- Splits a character list at every `&` (no segment is dropped here;
`parseQuery` filters the empty ones as `URLSearchParams` does). -/
def splitAmp : List Char → List (List Char)
  | [] => [[]]
  | '&' :: rest => [] :: splitAmp rest
  | c :: rest =>
    match splitAmp rest with
    | h :: t => (c :: h) :: t
    | [] => [[c]]

/-- Splits one `key=value` segment at its first `=` (a segment without
`=` has the empty value) and decodes both sides. -/
def parsePair (seg : List Char) : String × String :=
  let k := seg.takeWhile (fun c => c != '=')
  let rest := seg.dropWhile (fun c => c != '=')
  let v : List Char :=
    match rest with
    | '=' :: r => r
    | _ => []
  (String.mk (formDecode k), String.mk (formDecode v))

/-- The parameter list of `new URLSearchParams(query)`, in order and
with duplicates kept. -/
def parseQuery (q : List Char) : List (String × String) :=
  ((splitAmp q).filter (fun seg => !seg.isEmpty)).map parsePair

/-- First value of a parameter (`parsedQuery.get(name)`). -/
def getParam (pairs : List (String × String)) (k : String) : Option String :=
  lookupA pairs k

/-- Consumes one leading `&` if present (the trailing `&?` of the
replacement patterns). -/
def ampDrop : List Char → List Char
  | '&' :: r => r
  | r => r

/-- Whether the regex `event=[^&]+` matches at the start of the list:
the literal `event=` followed by at least one character that is not
`&`. -/
def eventMarkerAt (s : List Char) : Bool :=
  "event=".toList.isPrefixOf s
    && (match s.drop 6 with
        | [] => false
        | c :: _ => c != '&')

/-- The replacement `query.replace(/event=[^&]+&?/, "")`: the leftmost
match of the literal `event=` followed by a maximal nonempty run of
non-`&` characters and an optional `&` is removed; with no match the
string is unchanged.  Note the pattern can match inside a longer
parameter name such as `xevent=1`. -/
def dropEventMarker : List Char → List Char
  | [] => []
  | c :: rest =>
    if eventMarkerAt (c :: rest) then
      ampDrop (((c :: rest).drop 6).dropWhile (fun x => x != '&'))
    else c :: dropEventMarker rest

/-- The replacement `cleaned.replace(new RegExp(escape(lit) + "&?"), "")`:
the leftmost occurrence of the literal `lit` plus an optional following
`&` is removed; with no occurrence the string is unchanged. -/
def removeLitAmp (lit : List Char) : List Char → List Char
  | [] => []
  | c :: rest =>
    if lit.isPrefixOf (c :: rest) then ampDrop ((c :: rest).drop lit.length)
    else c :: removeLitAmp lit rest

/-- The final `cleaned.replace(/&$/, "")`. -/
def dropTrailingAmp (s : List Char) : List Char :=
  match s.getLast? with
  | some '&' => s.dropLast
  | _ => s

/-- Bool-valued lexicographic comparison of strings by code points,
the comparison performed by the default `Array.prototype.sort` on
strings (UTF-16 code-unit order; identical to code-point order on the
basic multilingual plane, which covers every key used here). -/
def strLeB (a b : String) : Bool :=
  go a.toList b.toList
where
  go : List Char → List Char → Bool
    | [], _ => true
    | _ :: _, [] => false
    | a :: as, b :: bs => if a = b then go as bs else decide (a.toNat < b.toNat)

/-- The comparison as a decidable relation. -/
def strLeP (a b : String) : Prop := strLeB a b = true

instance : DecidableRel strLeP :=
  fun a b => inferInstanceAs (Decidable (strLeB a b = true))

/-- The result of `array.sort()` on strings: sorted in `strLeB` order.
Any sorting algorithm yields the same list, the order being total and
antisymmetric. -/
def sortStrings (l : List String) : List String :=
  List.insertionSort strLeP l

/-- Joining by comma, as the template interpolation of an array does. -/
def joinComma (l : List String) : String :=
  String.intercalate "," l

example : parseQuery "x=1&event=grant-response&status=Success".toList
    = [("x", "1"), ("event", "grant-response"), ("status", "Success")] := by decide
example : dropEventMarker "x=1&event=grant-response&y=2".toList = "x=1&y=2".toList := by decide
example : dropEventMarker "xevent=1&event=gr".toList = "xevent=gr".toList := by decide
example : removeLitAmp "status=Success".toList "x=1&status=Success&y=2".toList
    = "x=1&y=2".toList := by decide
example : sortStrings ["b", "/^a.+$/", "A"] = ["/^a.+$/", "A", "b"] := by decide
example : formDecode "a%20b+c%2".toList = "a b c%2".toList := by decide

/-- Outcome of the scan of a live query by
`RedirectBehavior.getRedirectResponse`: the collected envelope, the
required specs not yet satisfied, and the query after the string
surgery. -/
structure Scanned where
  response : List (String × String)
  missing : List KeySpec
  cleaned : List Char
deriving DecidableEq

/-- One iteration of the parameter loop of `getRedirectResponse`
(`for (const [key, value] of parsedQuery) for (const expectedKey of
expectedKeys) ...`): the first spec satisfied by the key collects the
pair into the envelope, deletes that spec from the missing set and
removes the literal `key=value` (plus optional `&`) from the cleaned
query; a key matching no spec changes nothing. -/
def scanStep (expected : List KeySpec) (acc : Scanned) (kv : String × String) : Scanned :=
  match expected.find? (fun sp => sp.matches kv.1) with
  | none => acc
  | some sp =>
    { response := assocSet acc.response kv.1 kv.2
      missing := acc.missing.filter (fun m => m ≠ sp)
      cleaned := removeLitAmp (kv.1.toList ++ '=' :: kv.2.toList) acc.cleaned }

/-- The whole scan of a live query: the missing set starts as
`new Set(requiredKeys)` (duplicates removed, first occurrences kept),
the cleaned query starts as the query with the first `event=...` marker
removed, and a trailing `&` is dropped at the end. -/
def extractScan (required optional : List KeySpec) (q : List Char) : Scanned :=
  let sc := (parseQuery q).foldl (scanStep (required ++ optional))
    { response := [], missing := required.eraseDups, cleaned := dropEventMarker q }
  { sc with cleaned := dropTrailingAmp sc.cleaned }

/-- The array mutated in place by `requiredKeys.push("status")`: the
string `status` is appended when no element of the array is that exact
string (`includes` compares with `===`, so a regex element never
counts). -/
def pushStatus (ks : List KeySpec) : List KeySpec :=
  if KeySpec.exact "status" ∈ ks then ks else ks ++ [KeySpec.exact "status"]

/-- The Response Identity
`event + "_required:" + sorted stringified required keys + optional part`
computed by `getRedirectResponse` after the `status` push. -/
def responseId (event : String) (required optional : List KeySpec) : String :=
  event ++ "_required:" ++ joinComma (sortStrings (required.map KeySpec.print))
    ++ (if optional.isEmpty then ""
        else "_optional:" ++ joinComma (sortStrings (optional.map KeySpec.print)))

/-- Browser state seen by `RedirectBehavior.getRedirectResponse`:
`location.search` (empty or starting with a question mark),
`location.hash` (empty or starting with a number sign), the origin of
`document.referrer` (`none` when the referrer is empty), and the
`ten31-pass-redirect-behavior` slot of the current history entry
(mapping Response Identity to cached envelope).  Other fields of
`history.state` are unaffected by the function and not modelled. -/
structure RedirectSt where
  search : String
  hash : String
  referrerOrigin : Option String
  histCache : List (String × List (String × String))
deriving DecidableEq

/-- Errors thrown by `getRedirectResponse`: the malformed-response
error (message `TEN31 Pass did not return expected response.`) and the
provider-rejected error (message
`TEN31 Pass rejected request with error: <status>` with the raw status
as cause). -/
inductive RError where
  | malformed
  | rejected (status : String)
deriving DecidableEq

/-- Result of one call of `getRedirectResponse`: the returned value or
thrown error, the browser state afterwards, and the contents of the
caller-supplied `requiredKeys` array afterwards (the function mutates
it in place). -/
structure RedirectResult where
  result : Except RError (Option (List (String × String)))
  state : RedirectSt
  requiredKeysAfter : List KeySpec

/-- The origin gate
`if (origin && (!document.referrer || new URL(document.referrer).origin !== origin)) return null`.
A supplied origin is modelled as `some o` with `o` nonempty, matching
every call site of the repository. -/
def gatePasses (origin : Option String) (st : RedirectSt) : Bool :=
  match origin with
  | none => true
  | some o =>
    match st.referrerOrigin with
    | none => false
    | some r => r == o

/-- The query text of a location component (`query.substring(1)`
removes the leading question mark or number sign). -/
def queryOf (component : String) : List Char :=
  component.toList.drop 1

/-- The first component of `[location.search, location.hash]` that is
nonempty and whose parsed `event` parameter equals the requested event
name (`true` tags the search component), mirroring the `continue`
conditions of the loop; the loop body always leaves the function, so at
most one component is ever processed. -/
def firstLive (event : String) (st : RedirectSt) : Option (Bool × List Char) :=
  let qs := queryOf st.search
  if !qs.isEmpty && getParam (parseQuery qs) "event" == some event then some (true, qs)
  else
    let qh := queryOf st.hash
    if !qh.isEmpty && getParam (parseQuery qh) "event" == some event then some (false, qh)
    else none

/-- Validation of a live match and construction of the call result, as
a function of the extracted status value (the branch structure from
`if (!response.status || ...)` onward): absent or empty status or a
Success status with unsatisfied required specs throws the
malformed-response error, any other non-Success status throws the
provider rejection with the raw status as cause, and a clean Success
caches the envelope in the history entry under the Response Identity,
rewrites the matched address component to the cleaned query, and
returns the envelope. -/
def statusOutcome (st : RedirectSt) (required : List KeySpec) (rid : String)
    (inSearch : Bool) (sc : Scanned) : Option String → RedirectResult
  | none => ⟨.error .malformed, st, required⟩
  | some s =>
    if s = "" ∨ (s = "Success" ∧ sc.missing ≠ []) then
      ⟨.error .malformed, st, required⟩
    else if s ≠ "Success" then
      ⟨.error (.rejected s), st, required⟩
    else
      ⟨.ok (some sc.response),
        { st with
          histCache := assocSet st.histCache rid sc.response
          search := if inSearch then "?" ++ String.mk sc.cleaned else st.search
          hash := if inSearch then st.hash else "#" ++ String.mk sc.cleaned },
        required⟩

/-- The fallback read of the navigation-entry cache
(`history.state?.[STORAGE_KEY]?.[responseId] || null`; a cached
envelope is an object and objects are truthy). -/
def cacheOutcome (st : RedirectSt) (required : List KeySpec) :
    Option (List (String × String)) → RedirectResult
  | some r => ⟨.ok (some r), st, required⟩
  | none => ⟨.ok none, st, required⟩

/-- Model of `RedirectBehavior.getRedirectResponse(event, requiredKeys,
optionalKeys, origin)` acting on browser state `st`.  The address
rewrite `location.href.replace(query, cleanedQuery)` is modelled as
replacing the text of the component in which the live match was found,
which is where the first occurrence of the query text lies for every
address considered here. -/
def RedirectBehavior.getRedirectResponse (event : String)
    (requiredKeys optionalKeys : List KeySpec) (origin : Option String)
    (st : RedirectSt) : RedirectResult :=
  if !gatePasses origin st then ⟨.ok none, st, requiredKeys⟩
  else
    let required := pushStatus requiredKeys
    let rid := responseId event required optionalKeys
    match firstLive event st with
    | some (inSearch, q) =>
      let sc := extractScan required optionalKeys q
      statusOutcome st required rid inSearch sc (lookupA sc.response "status")
    | none => cacheOutcome st required (lookupA st.histCache rid)

/-- The static `getRecoverableState(requestId)`:
`JSON.parse(sessionStorage[KEY] || "{}")[requestId] || null`.  The
stored mapping is the parsed content of the single storage key; a falsy
stored entry (and an absent one) comes back as null. -/
def RedirectBehavior.getRecoverableState (storage : List (String × JVal))
    (requestId : String) : JVal :=
  match lookupA storage requestId with
  | some v => if v.truthy then v else .null
  | none => .null

/-- The static `setRecoverableState(requestId, recoverableState)`:
the stored mapping is re-serialized with the entry merged in
(`{...parsed, [requestId]: state}`), not replaced. -/
def RedirectBehavior.setRecoverableState (storage : List (String × JVal))
    (requestId : String) (recoverableState : JVal) : List (String × JVal) :=
  assocSet storage requestId recoverableState

/-- The preferred response type enum (`ResponseType`). -/
inductive ResponseType where
  | postMessage
  | redirect
  | immediateRedirect
deriving DecidableEq

/-- Wire value of a response type. -/
def ResponseType.wire : ResponseType → String
  | .postMessage => "post-message"
  | .redirect => "redirect"
  | .immediateRedirect => "immediate-redirect"

/-- Side effects performed synchronously by the behaviors, in program
order: writing the recoverable-state store, opening a popup window,
submitting the hidden form (`postRequest`), a plain
`window.location.assign`, and appending the popup overlay.  The
encoding of form fields to strings inside `postRequest` is not
modelled; fields are carried as values. -/
inductive Effect where
  | setState (requestId : String) (value : JVal)
  | openPopup (url : String)
  | postForm (url : String) (fields : List (String × JVal))
  | assign (url : String)
  | appendOverlay

/-- Whether an effect navigates (submitting the form navigates the
target browsing context; `assign` navigates the page). -/
def isNavEffect : Effect → Bool
  | .postForm _ _ => true
  | .assign _ => true
  | _ => false

/-- Effect of one step on the session-scoped recoverable-state
mapping. -/
def applyEffect (storage : List (String × JVal)) : Effect → List (String × JVal)
  | .setState rid v => RedirectBehavior.setRecoverableState storage rid v
  | _ => storage

/-- Folding a list of effects over the store. -/
def applyEffects (storage : List (String × JVal)) (effs : List Effect) :
    List (String × JVal) :=
  effs.foldl applyEffect storage

/-- Options of `RedirectBehavior.call`; `recoverable = some (rid, v)`
models an options object with the `recoverableState` key present
(together with its `requestId`). -/
structure RedirectOptions where
  preferredResponseType : Option ResponseType := none
  recoverable : Option (String × JVal) := none

/-- The merged form data `{...data, preferred_response_type: t}` sent
by both behaviors when a preferred response type is set. -/
def mergedRequestData (data : Option (List (String × JVal)))
    (prt : Option ResponseType) : Option (List (String × JVal)) :=
  if data.isSome || prt.isSome then
    some (match prt with
      | some t => assocSet (data.getD []) "preferred_response_type" (.str t.wire)
      | none => data.getD [])
  else none

/-- Model of `RedirectBehavior.call(request, data, options)`: stores
the recoverable state first when a pair was supplied, then either
submits the background form (when there is data or a response-type
hint) or performs a plain navigation.  The function body contains no
throwing operation, so the model is a total function producing the
effect trace in program order. -/
def RedirectBehavior.call (endpoint request : String)
    (data : Option (List (String × JVal))) (opts : Option RedirectOptions) :
    List Effect :=
  let url := endpoint ++ request
  let prt := opts.bind (fun o => o.preferredResponseType)
  (match opts.bind (fun o => o.recoverable) with
   | some (rid, v) => [Effect.setState rid v]
   | none => []) ++
  (match mergedRequestData data prt with
   | some d => [Effect.postForm url d]
   | none => [Effect.assign url])

/-- Simplified `new URL(u).origin`: the scheme, the separator and the
authority up to the next slash.  Port and default-port normalization
are not modelled; the endpoints of this repository are plain
`scheme://host/` URLs for which this is exact. -/
def urlOrigin (u : String) : String :=
  match go u.toList with
  | some (scheme, rest) =>
    String.mk (scheme ++ ':' :: '/' :: '/' :: rest.takeWhile (fun c => c != '/'))
  | none => u
where
  go : List Char → Option (List Char × List Char)
    | [] => none
    | c :: rest =>
      if (':' :: '/' :: '/' :: []).isPrefixOf (c :: rest) then
        some ([], (c :: rest).drop 3)
      else
        match go rest with
        | some (b, a) => some (c :: b, a)
        | none => none

/-- Settlement of the promise returned by a `POST_MESSAGE` popup call:
resolution with the delivered envelope, the malformed-response
rejection, the provider rejection carrying the raw status as cause, or
the popup-closed rejection. -/
inductive Outcome where
  | resolve (envelope : List (String × JVal))
  | rejectMalformed
  | rejectProvider (status : JVal)
  | rejectClosed

/-- Observable events racing for the settlement: a cross-window
message (with sender origin and data) and a tick of the 300 ms close
poll reporting whether `popup.closed` held. -/
inductive PopupEvent where
  | message (origin : String) (data : JVal)
  | closeTick (closed : Bool)

/-- The waiting state captured by the promise executor of
`PopupBehavior.call` for a `POST_MESSAGE` request: the endpoint origin,
the response event name, the optional caller filter and the optional
required keys. -/
structure PendingResponse where
  endpointOrigin : String
  responseEvent : String
  responseFilter : Option (List (String × JVal) → Bool)
  requiredKeys : Option (List KeySpec)

/-- Whether a required key specification is satisfied by a message
object: a string spec by the `in` operator (key presence), a pattern
spec by some key fully matching it. -/
def specPresent (fields : List (String × JVal)) : KeySpec → Bool
  | .exact s => fields.any (fun kv => kv.1 == s)
  | .patt p => fields.any (fun kv => KeySpec.matches (.patt p) kv.1)

/-- One run of the `onPopupMessage` listener (source order): drop the
message unless the origin is the endpoint origin, the data is a truthy
object and its `event` field equals the response event; delete the
`event` field; keep waiting when the caller filter rejects the message
or, by default, when the status is the string Error or Unknown; reject
with the malformed-response error on a falsy status or on a Success
status with some required key unsatisfied; reject with the provider
rejection on any other non-Success status; otherwise delete the
`status` field and resolve with the rest.  `none` means the promise
keeps waiting. -/
def PendingResponse.stepMessage (p : PendingResponse) (origin : String)
    (data : JVal) : Option Outcome :=
  match data with
  | .obj fields =>
    if origin != p.endpointOrigin then none
    else if !(match lookupA fields "event" with
              | some v => v.isStr p.responseEvent
              | none => false) then none
    else
      let fields1 := eraseKey fields "event"
      let status := lookupA fields1 "status"
      if (match p.responseFilter with
          | some f => !f fields1
          | none =>
            match status with
            | some v => v.isStr "Error" || v.isStr "Unknown"
            | none => false) then none
      else if (match status with
               | none => true
               | some v => !v.truthy)
              || (match status, p.requiredKeys with
                  | some v, some ks =>
                    v.isStr "Success" && ks.any (fun k => !specPresent fields1 k)
                  | _, _ => false) then some .rejectMalformed
      else
        match status with
        | none => some .rejectMalformed
        | some v =>
          if v.isStr "Success" then some (.resolve (eraseKey fields1 "status"))
          else some (.rejectProvider v)
  | _ => none

/-- One observable event: a message runs the listener; a close-poll
tick with the popup detected closed rejects with the popup-closed
error, and with the popup still open changes nothing. -/
def PendingResponse.step (p : PendingResponse) : PopupEvent → Option Outcome
  | .message origin data => p.stepMessage origin data
  | .closeTick closed => if closed then some .rejectClosed else none

/-- The promise settles with the first event that produces an outcome;
the listener and the close poll stay active until then, and later
events cannot re-settle it. -/
def PendingResponse.run (p : PendingResponse) : List PopupEvent → Option Outcome
  | [] => none
  | ev :: rest =>
    match p.step ev with
    | some o => some o
    | none => p.run rest

/-- Options of `PopupBehavior.call`.  The overlay option is modelled
as its truthiness (text and logo choices only affect presentation);
`responseEvent`, `responseFilter` and `requiredKeys` are only
meaningful together with the `POST_MESSAGE` preferred response
type. -/
structure PopupOptions where
  preferredResponseType : Option ResponseType := none
  responseEvent : String := ""
  responseFilter : Option (List (String × JVal) → Bool) := none
  requiredKeys : Option (List KeySpec) := none
  overlay : Bool := false
  recoverable : Option (String × JVal) := none

/-- Model of `PopupBehavior.call(request, data, options)`: stores the
recoverable state first when supplied, opens the popup, submits the
form into it when there is data or a response-type hint, appends the
overlay when requested, and for a `POST_MESSAGE` request returns the
waiting state of the promise (whose settlement semantics is
`PendingResponse.run`).  Popup blocking and the focus/recreate overlay
callbacks are environment interactions outside the model. -/
def PopupBehavior.call (endpoint request : String)
    (data : Option (List (String × JVal))) (opts : Option PopupOptions) :
    List Effect × Option PendingResponse :=
  let url := endpoint ++ request
  let prt := opts.bind (fun o => o.preferredResponseType)
  let effects :=
    (match opts.bind (fun o => o.recoverable) with
     | some (rid, v) => [Effect.setState rid v]
     | none => []) ++
    [Effect.openPopup url] ++
    (match mergedRequestData data prt with
     | some d => [Effect.postForm url d]
     | none => []) ++
    (if (opts.map (fun o => o.overlay)).getD false then [Effect.appendOverlay] else [])
  match opts with
  | some o =>
    if o.preferredResponseType = some .postMessage then
      (effects, some ⟨urlOrigin endpoint, o.responseEvent, o.responseFilter, o.requiredKeys⟩)
    else (effects, none)
  | none => (effects, none)

/-- One usage inside a `ServiceRequest`. -/
structure ServiceUsage where
  usageId : String
  parameters : Option (List (String × JVal)) := none

/-- A `ServiceRequest` of the public API. -/
structure ServiceRequest where
  serviceId : String
  usages : Option (List ServiceUsage) := none

/-- The inner `reduce` of `requestGrants` converting the usages of one
service: a usage id already present in the accumulator throws
`TEN31 Pass request invalid`, otherwise the usage is stored under its
id with `parameters || {}`. -/
def convertUsages : List (String × JVal) → List ServiceUsage →
    Except String (List (String × JVal))
  | acc, [] => .ok acc
  | acc, u :: rest =>
    if acc.any (fun kv => kv.1 == u.usageId) then .error "TEN31 Pass request invalid"
    else convertUsages (acc ++ [(u.usageId, .obj (u.parameters.getD []))]) rest

/-- The outer `reduce` of `requestGrants`: a service id already present
in the accumulator throws `TEN31 Pass request invalid`, otherwise the
converted usages of the service (with `usages || []`) are stored under
the service id. -/
def convertServices : List (String × JVal) → List ServiceRequest →
    Except String (List (String × JVal))
  | acc, [] => .ok acc
  | acc, s :: rest =>
    if acc.any (fun kv => kv.1 == s.serviceId) then .error "TEN31 Pass request invalid"
    else
      match convertUsages [] (s.usages.getD []) with
      | .error e => .error e
      | .ok us => convertServices (acc ++ [(s.serviceId, .obj us)]) rest

/-- The request id `[appId, ...serviceIds.sort()].join("_")`. -/
def Ten31PassApi.getRequestId (appId : String) (serviceIds : List String) : String :=
  String.intercalate "_" (appId :: sortStrings serviceIds)

/-- Options of `requestGrants` (the destructured parameter with its
defaults applied inside the model function). -/
structure GrantOptions where
  preferredResponseType : Option ResponseType := none
  redirectRecoverableState : Option JVal := none
  popupOverlay : Option Bool := none

/-- Model of `Ten31PassApi.requestGrants(appId, services, asPopup,
options)`: converts the service list (throwing synchronously on a
duplicate service or usage id, before any side effect), builds the
request `{app, services}` and the recoverable-state pair keyed by the
request id, and dispatches to the popup or redirect behavior.  The
result carries the effect trace and, for a popup `POST_MESSAGE`
request, the waiting state of the returned promise. -/
def Ten31PassApi.requestGrants (endpoint appId : String)
    (services : List ServiceRequest) (asPopup : Bool) (opts : GrantOptions) :
    Except String (List Effect × Option PendingResponse) :=
  match convertServices [] services with
  | .error e => .error e
  | .ok converted =>
    let request : List (String × JVal) :=
      [("app", .str appId), ("services", .obj converted)]
    let preferred := opts.preferredResponseType.getD
      (if asPopup then .postMessage else .redirect)
    let overlay := opts.popupOverlay.getD asPopup
    let recov : Option (String × JVal) := opts.redirectRecoverableState.map
      (fun st => (Ten31PassApi.getRequestId appId (services.map (fun s => s.serviceId)), st))
    if asPopup then
      if preferred = .postMessage then
        .ok (PopupBehavior.call endpoint "grants/request" (some request)
          (some { preferredResponseType := some preferred
                  responseEvent := "grant-response"
                  requiredKeys := some [KeySpec.exact "app"]
                  recoverable := recov
                  overlay := overlay }))
      else
        .ok (PopupBehavior.call endpoint "grants/request" (some request)
          (some { preferredResponseType := some preferred
                  recoverable := recov
                  overlay := overlay }))
    else
      .ok (RedirectBehavior.call endpoint "grants/request" (some request)
        (some { preferredResponseType := some preferred
                recoverable := recov }), none)
/-- Characters with equal code points are equal. -/
theorem charToNat_inj {a b : Char} (h : a.toNat = b.toNat) : a = b := by
  have := congrArg Char.ofNat h
  rwa [Char.ofNat_toNat, Char.ofNat_toNat] at this

theorem strLeB_go_total (a : List Char) : ∀ b, strLeB.go a b = true ∨ strLeB.go b a = true := by
  induction a with
  | nil => intro b; left; rfl
  | cons x xs ih =>
    intro b
    cases b with
    | nil => right; rfl
    | cons y ys =>
      by_cases hxy : x = y
      · subst hxy
        simp only [strLeB.go, if_pos rfl]
        exact ih ys
      · have hne : x.toNat ≠ y.toNat := fun h => hxy (charToNat_inj h)
        rcases Nat.lt_or_ge x.toNat y.toNat with h | h
        · left; simp [strLeB.go, hxy, h]
        · right
          have : y.toNat < x.toNat := Nat.lt_of_le_of_ne h (fun h2 => hne h2.symm)
          simp [strLeB.go, Ne.symm hxy, this]

theorem strLeB_go_trans (a : List Char) :
    ∀ b c, strLeB.go a b = true → strLeB.go b c = true → strLeB.go a c = true := by
  induction a with
  | nil => intro b c _ _; rfl
  | cons x xs ih =>
    intro b c hab hbc
    cases b with
    | nil => simp [strLeB.go] at hab
    | cons y ys =>
      cases c with
      | nil => simp [strLeB.go] at hbc
      | cons z zs =>
        by_cases hxy : x = y
        · subst hxy
          simp only [strLeB.go, if_pos rfl] at hab
          by_cases hxz : x = z
          · subst hxz
            simp only [strLeB.go, if_pos rfl] at hbc ⊢
            exact ih ys zs hab hbc
          · have h2 : x.toNat < z.toNat := by
              simpa [strLeB.go, hxz] using hbc
            simp [strLeB.go, hxz, h2]
        · have h1 : x.toNat < y.toNat := by
            simpa [strLeB.go, hxy] using hab
          by_cases hyz : y = z
          · subst hyz
            simp [strLeB.go, hxy, h1]
          · have h2 : y.toNat < z.toNat := by
              simpa [strLeB.go, hyz] using hbc
            have hxz : x.toNat < z.toNat := Nat.lt_trans h1 h2
            have : x ≠ z := fun h => by subst h; exact Nat.lt_irrefl _ (Nat.lt_trans h1 h2)
            simp [strLeB.go, this, hxz]

theorem strLeB_go_antisymm (a : List Char) :
    ∀ b, strLeB.go a b = true → strLeB.go b a = true → a = b := by
  induction a with
  | nil =>
    intro b _ hba
    cases b with
    | nil => rfl
    | cons y ys => simp [strLeB.go] at hba
  | cons x xs ih =>
    intro b hab hba
    cases b with
    | nil => simp [strLeB.go] at hab
    | cons y ys =>
      by_cases hxy : x = y
      · subst hxy
        simp only [strLeB.go, if_pos rfl] at hab hba
        rw [ih ys hab hba]
      · have h1 : x.toNat < y.toNat := by simpa [strLeB.go, hxy] using hab
        have h2 : y.toNat < x.toNat := by simpa [strLeB.go, Ne.symm hxy] using hba
        exact absurd h2 (Nat.lt_asymm h1)

instance : IsTotal String strLeP :=
  ⟨fun a b => strLeB_go_total a.toList b.toList⟩

instance : IsTrans String strLeP :=
  ⟨fun a b c => strLeB_go_trans a.toList b.toList c.toList⟩

instance : IsAntisymm String strLeP := by
  refine ⟨fun a b hab hba => ?_⟩
  have h := strLeB_go_antisymm a.toList b.toList hab hba
  cases a; cases b; exact congrArg String.mk (by simpa using h)

/-- Sorting is invariant under permutation of the input. -/
theorem sortStrings_eq_of_perm {l1 l2 : List String} (h : l1.Perm l2) :
    sortStrings l1 = sortStrings l2 := by
  refine List.eq_of_perm_of_sorted (r := strLeP) ?_ ?_ ?_
  · exact (List.perm_insertionSort _ l1).trans (h.trans (List.perm_insertionSort _ l2).symm)
  · exact List.sorted_insertionSort _ l1
  · exact List.sorted_insertionSort _ l2
/-- Setting a key makes it readable. -/
theorem lookupA_assocSet_self {α : Type} (m : List (String × α)) (k : String) (v : α) :
    lookupA (assocSet m k v) k = some v := by
  induction m with
  | nil => simp [assocSet, lookupA, List.find?]
  | cons hd tl ih =>
    obtain ⟨k0, v0⟩ := hd
    by_cases h : k0 == k
    · simp [assocSet, h, lookupA, List.find?]
    · simp only [assocSet, h, Bool.false_eq_true, if_neg, not_false_eq_true]
      simp only [lookupA, List.find?, h] at ih ⊢
      exact ih

/-- Setting a key leaves every other key unchanged. -/
theorem lookupA_assocSet_ne {α : Type} (m : List (String × α)) {k k1 : String}
    (h : k1 ≠ k) (v : α) : lookupA (assocSet m k v) k1 = lookupA m k1 := by
  have hkk1 : (k == k1) = false := by
    simpa using Ne.symm h
  induction m with
  | nil => simp [assocSet, lookupA, List.find?, hkk1]
  | cons hd tl ih =>
    obtain ⟨k0, v0⟩ := hd
    by_cases h0 : k0 == k
    · have hk0 : k0 = k := by simpa using h0
      subst hk0
      simp [assocSet, lookupA, List.find?, hkk1]
    · simp only [assocSet, h0, Bool.false_eq_true, if_neg, not_false_eq_true]
      by_cases h1 : k0 == k1
      · simp [lookupA, List.find?, h1]
      · simp only [lookupA, List.find?, h1] at ih ⊢
        exact ih

/-- Deleting a key removes it. -/
theorem lookupA_eraseKey_self {α : Type} (m : List (String × α)) (k : String) :
    lookupA (eraseKey m k) k = none := by
  induction m with
  | nil => rfl
  | cons hd tl ih =>
    obtain ⟨k0, v0⟩ := hd
    by_cases h0 : k0 == k
    · have : (k0 != k) = false := by simpa [bne] using h0
      simp only [eraseKey, List.filter, this] at ih ⊢
      exact ih
    · have hne : (k0 != k) = true := by simpa [bne] using h0
      simp only [eraseKey, List.filter, hne, lookupA, List.find?, h0] at ih ⊢
      exact ih

/-- Deleting one key does not affect the lookup of a different key. -/
theorem lookupA_eraseKey_ne {α : Type} (m : List (String × α)) {k k1 : String}
    (h : k1 ≠ k) : lookupA (eraseKey m k) k1 = lookupA m k1 := by
  induction m with
  | nil => rfl
  | cons hd tl ih =>
    obtain ⟨k0, v0⟩ := hd
    by_cases h0 : k0 == k
    · have hk0 : k0 = k := by simpa using h0
      subst hk0
      have hne : (k0 == k1) = false := by simpa using Ne.symm h
      simp only [eraseKey, lookupA, List.find?, hne] at ih ⊢
      simpa [bne] using ih
    · have hne : (k0 != k) = true := by simpa [bne] using h0
      by_cases h1 : k0 == k1
      · simp [eraseKey, hne, lookupA, List.find?, h1]
      · simpa [eraseKey, hne, lookupA, List.find?, h1] using ih
/-- Claim C1, counterexample: the string surgery does not in general
leave unmatched parameters unchanged.  For the address
`?xevent=1&event=grant-response&status=Success&grant-for-app-1=abc`
the removal of the first match of `event=[^&]+&?` hits the inside of
the unmatched parameter `xevent=1`, so the cleaned address is
`?xevent=grant-response` instead of the `?xevent=1` the claim
requires (the unmatched parameter is corrupted and the event marker
value survives). -/
theorem c1_strip_only_matched_counterexample :
    (RedirectBehavior.getRedirectResponse "grant-response" [KeySpec.patt "grant-for-app-"] []
      none ⟨"?xevent=1&event=grant-response&status=Success&grant-for-app-1=abc", "", none, []⟩).state.search
      = "?xevent=grant-response"
    ∧ "?xevent=grant-response" ≠ "?xevent=1" := by
  exact ⟨by decide, by decide⟩

/-- Claim C1, amended: for the concrete address of the claim,
`?x=1&event=grant-response&status=Success&grant-for-app-42=abc&y=2`
with event `grant-response` and required keys `[/^grant-for-app-.+$/]`,
the call returns the envelope with status `Success` and
`grant-for-app-42 = abc` and rewrites the address query to
`?x=1&y=2`. -/
theorem c1_strip_only_matched_concrete :
    (RedirectBehavior.getRedirectResponse "grant-response" [KeySpec.patt "grant-for-app-"] []
      none ⟨"?x=1&event=grant-response&status=Success&grant-for-app-42=abc&y=2", "", none, []⟩).result
      = .ok (some [("status", "Success"), ("grant-for-app-42", "abc")])
    ∧ (RedirectBehavior.getRedirectResponse "grant-response" [KeySpec.patt "grant-for-app-"] []
      none ⟨"?x=1&event=grant-response&status=Success&grant-for-app-42=abc&y=2", "", none, []⟩).state.search
      = "?x=1&y=2"
    ∧ (RedirectBehavior.getRedirectResponse "grant-response" [KeySpec.patt "grant-for-app-"] []
      none ⟨"?x=1&event=grant-response&status=Success&grant-for-app-42=abc&y=2", "", none, []⟩).state.hash
      = "" := by
  refine ⟨rfl, by decide, rfl⟩

/-- Claim C7, counterexample: the recoverable-state read
`parsed[requestId] || null` collapses every falsy stored value to
null, so storing the value false under one request id and reading it
back yields null, not false. -/
theorem c7_recoverable_state_counterexample :
    RedirectBehavior.getRecoverableState
      (RedirectBehavior.setRecoverableState
        (RedirectBehavior.setRecoverableState [] "A_svc1" (.bool false)) "A_svc1_svc2" (.str "x"))
      "A_svc1" = JVal.null
    ∧ JVal.null ≠ JVal.bool false := by
  refine ⟨rfl, by simp⟩

/-- Claim C7, amended: for distinct request ids and truthy values,
two sequential writes land in the one shared mapping without
clobbering each other, and each id reads back its own value. -/
theorem c7_recoverable_state_independent (storage : List (String × JVal))
    (r1 r2 : String) (v1 v2 : JVal) (hne : r1 ≠ r2)
    (h1 : v1.truthy = true) (h2 : v2.truthy = true) :
    RedirectBehavior.getRecoverableState
      (RedirectBehavior.setRecoverableState
        (RedirectBehavior.setRecoverableState storage r1 v1) r2 v2) r1 = v1
    ∧ RedirectBehavior.getRecoverableState
      (RedirectBehavior.setRecoverableState
        (RedirectBehavior.setRecoverableState storage r1 v1) r2 v2) r2 = v2 := by
  unfold RedirectBehavior.getRecoverableState RedirectBehavior.setRecoverableState
  constructor
  · rw [lookupA_assocSet_ne _ hne, lookupA_assocSet_self]
    simp [h1]
  · rw [lookupA_assocSet_self]
    simp [h2]

/-- Witness for the amended claim C7 at concrete inputs. -/
theorem c7_recoverable_state_independent_witness :
    RedirectBehavior.getRecoverableState
      (RedirectBehavior.setRecoverableState
        (RedirectBehavior.setRecoverableState [] "A_svc1" (.str "a")) "A_svc1_svc2" (.num 1))
      "A_svc1" = JVal.str "a"
    ∧ RedirectBehavior.getRecoverableState
      (RedirectBehavior.setRecoverableState
        (RedirectBehavior.setRecoverableState [] "A_svc1" (.str "a")) "A_svc1_svc2" (.num 1))
      "A_svc1_svc2" = JVal.num 1 :=
  c7_recoverable_state_independent [] "A_svc1" "A_svc1_svc2" (.str "a") (.num 1)
    (by decide) rfl rfl
/-- The live-match outcome carries the pushed array whatever the
status value. -/
theorem statusOutcome_requiredKeys (st : RedirectSt) (required : List KeySpec)
    (rid : String) (inSearch : Bool) (sc : Scanned) (os : Option String) :
    (statusOutcome st required rid inSearch sc os).requiredKeysAfter = required := by
  cases os with
  | none => rfl
  | some s =>
    simp only [statusOutcome]
    split
    · rfl
    · split
      · rfl
      · rfl

/-- The cache-read outcome carries the pushed array. -/
theorem cacheOutcome_requiredKeys (st : RedirectSt) (required : List KeySpec)
    (oc : Option (List (String × String))) :
    (cacheOutcome st required oc).requiredKeysAfter = required := by
  cases oc <;> rfl

/-- The live-match outcome never changes the referrer origin. -/
theorem statusOutcome_referrer (st : RedirectSt) (required : List KeySpec)
    (rid : String) (inSearch : Bool) (sc : Scanned) (os : Option String) :
    (statusOutcome st required rid inSearch sc os).state.referrerOrigin
      = st.referrerOrigin := by
  cases os with
  | none => rfl
  | some s =>
    simp only [statusOutcome]
    split
    · rfl
    · split
      · rfl
      · rfl

/-- The cache-read outcome never changes the state at all. -/
theorem cacheOutcome_state (st : RedirectSt) (required : List KeySpec)
    (oc : Option (List (String × String))) :
    (cacheOutcome st required oc).state = st := by
  cases oc <;> rfl

/-- Every branch past the origin gate leaves the mutated required-keys
array equal to the pushed array. -/
theorem requiredKeysAfter_of_gate (event : String) (ks opt : List KeySpec)
    (origin : Option String) (st : RedirectSt) (hg : gatePasses origin st = true) :
    (RedirectBehavior.getRedirectResponse event ks opt origin st).requiredKeysAfter
      = pushStatus ks := by
  unfold RedirectBehavior.getRedirectResponse
  rw [hg]
  simp only [Bool.not_true, Bool.false_eq_true, if_false]
  split
  · apply statusOutcome_requiredKeys
  · apply cacheOutcome_requiredKeys

/-- The pushed array contains the status string. -/
theorem pushStatus_mem (ks : List KeySpec) : KeySpec.exact "status" ∈ pushStatus ks := by
  unfold pushStatus
  split
  · assumption
  · exact List.mem_append_right _ (List.mem_singleton.2 rfl)

/-- Pushing twice appends at most once. -/
theorem pushStatus_idem (ks : List KeySpec) : pushStatus (pushStatus ks) = pushStatus ks := by
  have h := pushStatus_mem ks
  unfold pushStatus
  rw [if_pos]
  exact h

/-- Claim C10, counterexample: a call whose origin argument is set
while the referrer is absent returns before the push, so the
caller-supplied array stays without the status element, contradicting
the unconditional mutation the claim states. -/
theorem c10_mutation_counterexample :
    (RedirectBehavior.getRedirectResponse "grant-response" [] []
      (some "https://pass.ten31.com")
      ⟨"?event=grant-response&status=Success&grant-for-app-1=a", "", none, []⟩).requiredKeysAfter
      = []
    ∧ KeySpec.exact "status" ∉ ([] : List KeySpec) := by
  exact ⟨rfl, by simp⟩

/-- Claim C10, amended: on every call that passes the origin gate
(no origin argument, or a referrer with equal origin), the
caller-supplied required-keys array afterwards is the original with
the exact string status appended when absent; it therefore contains
status, and a repeated call appends it at most once. -/
theorem c10_mutates_required_keys (event : String) (ks opt : List KeySpec)
    (origin : Option String) (st : RedirectSt) (hg : gatePasses origin st = true) :
    (RedirectBehavior.getRedirectResponse event ks opt origin st).requiredKeysAfter
      = (if KeySpec.exact "status" ∈ ks then ks else ks ++ [KeySpec.exact "status"])
    ∧ KeySpec.exact "status"
        ∈ (RedirectBehavior.getRedirectResponse event ks opt origin st).requiredKeysAfter
    ∧ pushStatus (RedirectBehavior.getRedirectResponse event ks opt origin st).requiredKeysAfter
        = (RedirectBehavior.getRedirectResponse event ks opt origin st).requiredKeysAfter := by
  rw [requiredKeysAfter_of_gate event ks opt origin st hg]
  exact ⟨rfl, pushStatus_mem ks, pushStatus_idem ks⟩

/-- Witness for the amended claim C10 at concrete inputs. -/
theorem c10_mutates_required_keys_witness :
    (RedirectBehavior.getRedirectResponse "grant-response" [] [] none
      ⟨"", "", none, []⟩).requiredKeysAfter
      = (if KeySpec.exact "status" ∈ ([] : List KeySpec) then []
         else [] ++ [KeySpec.exact "status"])
    ∧ KeySpec.exact "status"
        ∈ (RedirectBehavior.getRedirectResponse "grant-response" [] [] none
          ⟨"", "", none, []⟩).requiredKeysAfter
    ∧ pushStatus (RedirectBehavior.getRedirectResponse "grant-response" [] [] none
          ⟨"", "", none, []⟩).requiredKeysAfter
        = (RedirectBehavior.getRedirectResponse "grant-response" [] [] none
          ⟨"", "", none, []⟩).requiredKeysAfter :=
  c10_mutates_required_keys "grant-response" [] [] none ⟨"", "", none, []⟩ rfl
/-- Claim C8: `RedirectBehavior.call` is a total function of its
arguments (its body reaches no throwing operation, so it never throws
synchronously); its effect trace is an optional store of the
recoverable state followed by exactly one navigation effect, and when
a requestId/recoverableState pair was supplied the store already
contains the pair under that request id at the moment the navigation
effect runs. -/
theorem redirect_call_stores_state_before_navigation (endpoint request : String)
    (data : Option (List (String × JVal))) (opts : Option RedirectOptions)
    (storage : List (String × JVal)) :
    (∃ nav : Effect, isNavEffect nav = true ∧
      RedirectBehavior.call endpoint request data opts =
        (match opts.bind (fun o => o.recoverable) with
         | some (rid, v) => [Effect.setState rid v]
         | none => []) ++ [nav]) ∧
    (∀ rid v, opts.bind (fun o => o.recoverable) = some (rid, v) →
      lookupA (applyEffects storage
        ((RedirectBehavior.call endpoint request data opts).takeWhile
          (fun e => !isNavEffect e))) rid = some v) := by
  constructor
  · cases hmd : mergedRequestData data (opts.bind (fun o => o.preferredResponseType)) with
    | none =>
      refine ⟨Effect.assign (endpoint ++ request), rfl, ?_⟩
      simp only [RedirectBehavior.call]
      rw [hmd]
    | some d =>
      refine ⟨Effect.postForm (endpoint ++ request) d, rfl, ?_⟩
      simp only [RedirectBehavior.call]
      rw [hmd]
  · intro rid v hrec
    cases hmd : mergedRequestData data (opts.bind (fun o => o.preferredResponseType)) with
    | none =>
      simp only [RedirectBehavior.call]
      rw [hrec, hmd]
      simp only [List.cons_append, List.nil_append, List.takeWhile, isNavEffect,
        Bool.not_false, Bool.not_true, applyEffects, List.foldl, applyEffect,
        RedirectBehavior.setRecoverableState]
      exact lookupA_assocSet_self storage rid v
    | some d =>
      simp only [RedirectBehavior.call]
      rw [hrec, hmd]
      simp only [List.cons_append, List.nil_append, List.takeWhile, isNavEffect,
        Bool.not_false, Bool.not_true, applyEffects, List.foldl, applyEffect,
        RedirectBehavior.setRecoverableState]
      exact lookupA_assocSet_self storage rid v

/-- Witness for claim C8 at concrete inputs, with a recoverable-state
pair supplied. -/
theorem redirect_call_stores_state_before_navigation_witness :
    (∃ nav : Effect, isNavEffect nav = true ∧
      RedirectBehavior.call "https://pass.ten31.com/" "grants/request"
        (some [("app", .str "42")])
        (some { preferredResponseType := some .redirect
                recoverable := some ("A_svc1", .str "kept") }) =
        (match (some { preferredResponseType := some .redirect
                       recoverable := some ("A_svc1", .str "kept") }
               : Option RedirectOptions).bind (fun o => o.recoverable) with
         | some (rid, v) => [Effect.setState rid v]
         | none => []) ++ [nav]) ∧
    (∀ rid v,
      ((some { preferredResponseType := some .redirect
               recoverable := some ("A_svc1", .str "kept") }
        : Option RedirectOptions).bind (fun o => o.recoverable)) = some (rid, v) →
      lookupA (applyEffects []
        ((RedirectBehavior.call "https://pass.ten31.com/" "grants/request"
          (some [("app", .str "42")])
          (some { preferredResponseType := some .redirect
                  recoverable := some ("A_svc1", .str "kept") })).takeWhile
          (fun e => !isNavEffect e))) rid = some v) :=
  redirect_call_stores_state_before_navigation "https://pass.ten31.com/" "grants/request"
    (some [("app", .str "42")])
    (some { preferredResponseType := some .redirect
            recoverable := some ("A_svc1", .str "kept") }) []
/-- Claim C5, counterexample: a live match whose status parameter has
the empty value (`status=`) carries the non-Success status value of
the empty string, yet the call throws the malformed-response error
(`!response.status` is true for the empty string), not the
provider-rejected error the claim requires for every non-Success
status. -/
theorem c5_nonsuccess_rejected_counterexample :
    lookupA (extractScan (pushStatus []) [] (queryOf "#event=e5&status=")).response "status"
      = some ""
    ∧ (RedirectBehavior.getRedirectResponse "e5" [] [] none
        ⟨"", "#event=e5&status=", none, []⟩).result = .error .malformed
    ∧ (RedirectBehavior.getRedirectResponse "e5" [] [] none
        ⟨"", "#event=e5&status=", none, []⟩).result ≠ .error (.rejected "") := by
  refine ⟨rfl, rfl, ?_⟩
  intro h
  have h2 : Except.error (ε := RError) (α := Option (List (String × String)))
      RError.malformed = .error (.rejected "") := h
  simp at h2

/-- Claim C5, amended: a live event match whose extracted envelope
carries a nonempty non-Success status always throws the
provider-rejected error carrying that raw status string as cause. -/
theorem c5_nonempty_nonsuccess_rejected (event : String) (ks opt : List KeySpec)
    (origin : Option String) (st : RedirectSt) (b : Bool) (q : List Char) (s : String)
    (hg : gatePasses origin st = true)
    (hl : firstLive event st = some (b, q))
    (hs : lookupA (extractScan (pushStatus ks) opt q).response "status" = some s)
    (hne : s ≠ "") (hns : s ≠ "Success") :
    (RedirectBehavior.getRedirectResponse event ks opt origin st).result
      = .error (.rejected s) := by
  simp only [RedirectBehavior.getRedirectResponse, hg, Bool.not_true, Bool.false_eq_true,
    if_false, hl, hs, statusOutcome]
  rw [if_neg, if_pos hns]
  intro hcon
  rcases hcon with hcon | ⟨hcon, _⟩
  · exact hne hcon
  · exact hns hcon

/-- Witness for the amended claim C5 at concrete inputs: status
`InvalidRequest` on the redirect channel throws the provider-rejected
error with cause `InvalidRequest`. -/
theorem c5_nonempty_nonsuccess_rejected_witness :
    (RedirectBehavior.getRedirectResponse "e5w" [] [] none
      ⟨"?event=e5w&status=InvalidRequest", "", none, []⟩).result
      = .error (.rejected "InvalidRequest") :=
  c5_nonempty_nonsuccess_rejected "e5w" [] [] none
    ⟨"?event=e5w&status=InvalidRequest", "", none, []⟩ true
    (queryOf "?event=e5w&status=InvalidRequest") "InvalidRequest"
    rfl rfl rfl (by decide) (by decide)
/-- Claim C3, counterexample: for the live match
`?event=grant-response&status=` the extracted envelope does have a
status field (with the empty value) and is not Success-shaped, so the
claimed equivalence predicts no malformed-response error, but the call
throws it (`!response.status` also fires on the empty string). -/
theorem c3_malformed_iff_counterexample :
    ¬ (((RedirectBehavior.getRedirectResponse "grant-response" [] [] none
        ⟨"?event=grant-response&status=", "", none, []⟩).result = .error .malformed)
      ↔ (lookupA (extractScan (pushStatus []) []
            (queryOf "?event=grant-response&status=")).response "status" = none
         ∨ (lookupA (extractScan (pushStatus []) []
              (queryOf "?event=grant-response&status=")).response "status" = some "Success"
            ∧ (extractScan (pushStatus []) []
                (queryOf "?event=grant-response&status=")).missing ≠ []))) := by
  intro h
  have h1 : (RedirectBehavior.getRedirectResponse "grant-response" [] [] none
      ⟨"?event=grant-response&status=", "", none, []⟩).result = .error .malformed := rfl
  have h2 := h.mp h1
  have h3 : lookupA (extractScan (pushStatus []) []
      (queryOf "?event=grant-response&status=")).response "status" = some "" := rfl
  rcases h2 with h2 | ⟨h2, _⟩ <;> rw [h3] at h2 <;> simp at h2

/-- Claim C3, amended: on a live event match, the call throws the
malformed-response error exactly when the extracted envelope has no
status field or an empty status value, or its status is Success and
some required spec stayed unsatisfied; and an envelope it does return
is the scanned envelope with no required spec left unsatisfied. -/
theorem c3_malformed_iff (event : String) (ks opt : List KeySpec)
    (origin : Option String) (st : RedirectSt) (b : Bool) (q : List Char)
    (hg : gatePasses origin st = true)
    (hl : firstLive event st = some (b, q)) :
    (((RedirectBehavior.getRedirectResponse event ks opt origin st).result = .error .malformed)
      ↔ (lookupA (extractScan (pushStatus ks) opt q).response "status" = none
         ∨ lookupA (extractScan (pushStatus ks) opt q).response "status" = some ""
         ∨ (lookupA (extractScan (pushStatus ks) opt q).response "status" = some "Success"
            ∧ (extractScan (pushStatus ks) opt q).missing ≠ [])))
    ∧ (∀ r, (RedirectBehavior.getRedirectResponse event ks opt origin st).result
          = .ok (some r) →
        r = (extractScan (pushStatus ks) opt q).response
        ∧ (extractScan (pushStatus ks) opt q).missing = []) := by
  simp only [RedirectBehavior.getRedirectResponse, hg, Bool.not_true, Bool.false_eq_true,
    if_false, hl]
  cases hs : lookupA (extractScan (pushStatus ks) opt q).response "status" with
  | none =>
    constructor
    · simp [statusOutcome]
    · intro r hr
      simp [statusOutcome] at hr
  | some s =>
    simp only [statusOutcome]
    by_cases hcond : s = "" ∨ (s = "Success" ∧ (extractScan (pushStatus ks) opt q).missing ≠ [])
    · simp only [if_pos hcond]
      constructor
      · simp only [true_iff]
        rcases hcond with hcond | ⟨hcond, hmiss⟩
        · exact Or.inr (Or.inl (by rw [hcond]))
        · exact Or.inr (Or.inr ⟨by rw [hcond], hmiss⟩)
      · intro r hr
        simp at hr
    · simp only [if_neg hcond]
      push_neg at hcond
      obtain ⟨hne, hsucc⟩ := hcond
      by_cases hns : s ≠ "Success"
      · simp only [if_pos hns]
        constructor
        · constructor
          · intro hcon
            simp at hcon
          · intro hcon
            rcases hcon with hcon | hcon | ⟨hcon, _⟩
            · exact Option.noConfusion hcon
            · exact absurd (Option.some.inj hcon) hne
            · exact absurd (Option.some.inj hcon) hns
        · intro r hr
          simp at hr
      · simp only [if_neg hns]
        push_neg at hns
        subst hns
        have hmiss : (extractScan (pushStatus ks) opt q).missing = [] := hsucc rfl
        constructor
        · constructor
          · intro hcon
            simp at hcon
          · intro hcon
            rcases hcon with hcon | hcon | ⟨_, hcon⟩
            · exact Option.noConfusion hcon
            · exact absurd (Option.some.inj hcon) hne
            · exact (hcon hmiss).elim
        · intro r hr
          simp only [Except.ok.injEq, Option.some.injEq] at hr
          exact ⟨hr.symm, hmiss⟩

/-- Witness for the amended claim C3 at concrete inputs: a Success
envelope with all required keys present does not throw. -/
theorem c3_malformed_iff_witness :
    ((RedirectBehavior.getRedirectResponse "e3" [KeySpec.patt "grant-for-app-"] [] none
        ⟨"?event=e3&status=Success&grant-for-app-9=z", "", none, []⟩).result
        = .error .malformed)
      ↔ (lookupA (extractScan (pushStatus [KeySpec.patt "grant-for-app-"]) []
            (queryOf "?event=e3&status=Success&grant-for-app-9=z")).response "status" = none
         ∨ lookupA (extractScan (pushStatus [KeySpec.patt "grant-for-app-"]) []
            (queryOf "?event=e3&status=Success&grant-for-app-9=z")).response "status" = some ""
         ∨ (lookupA (extractScan (pushStatus [KeySpec.patt "grant-for-app-"]) []
              (queryOf "?event=e3&status=Success&grant-for-app-9=z")).response "status"
              = some "Success"
            ∧ (extractScan (pushStatus [KeySpec.patt "grant-for-app-"]) []
                (queryOf "?event=e3&status=Success&grant-for-app-9=z")).missing ≠ [])) :=
  (c3_malformed_iff "e3" [KeySpec.patt "grant-for-app-"] [] none
    ⟨"?event=e3&status=Success&grant-for-app-9=z", "", none, []⟩ true
    (queryOf "?event=e3&status=Success&grant-for-app-9=z") rfl rfl).1
/-- The popup call of claim C2: action `grants/request`, payload
`app = 42`, preferred response type `POST_MESSAGE`, response event
`grant-response`, required keys `[app]`. -/
def c2Options : PopupOptions :=
  { preferredResponseType := some .postMessage
    responseEvent := "grant-response"
    requiredKeys := some [KeySpec.exact "app"] }

/-- The waiting state produced by that call. -/
def c2Pending : PendingResponse :=
  ⟨"https://pass.ten31.com", "grant-response", none, some [KeySpec.exact "app"]⟩

/-- Claim C2: the call yields the expected waiting state; a Success
message from the endpoint origin resolves with the envelope stripped of
the routing fields; an InvalidRequest message from that origin rejects
with the provider rejection carrying InvalidRequest; and every resolved
envelope is free of the `event` and `status` routing fields. -/
theorem popup_call_grant_roundtrip :
    ((PopupBehavior.call "https://pass.ten31.com/" "grants/request"
        (some [("app", JVal.str "42")]) (some c2Options)).2 = some c2Pending)
    ∧ c2Pending.step (.message "https://pass.ten31.com"
        (.obj [("event", .str "grant-response"), ("status", .str "Success"),
               ("app", .str "42"), ("services", .obj [])]))
        = some (.resolve [("app", .str "42"), ("services", .obj [])])
    ∧ c2Pending.step (.message "https://pass.ten31.com"
        (.obj [("event", .str "grant-response"), ("status", .str "InvalidRequest")]))
        = some (.rejectProvider (.str "InvalidRequest"))
    ∧ (∀ (origin : String) (data : JVal) (envelope : List (String × JVal)),
        c2Pending.step (.message origin data) = some (.resolve envelope) →
        lookupA envelope "event" = none ∧ lookupA envelope "status" = none) := by
  refine ⟨rfl, rfl, rfl, ?_⟩
  intro origin data envelope h
  cases data with
  | obj fields =>
    simp only [PendingResponse.step, PendingResponse.stepMessage] at h
    split at h
    · exact Option.noConfusion h
    · split at h
      · exact Option.noConfusion h
      · split at h
        · exact Option.noConfusion h
        · split at h
          · simp at h
          · split at h
            · simp at h
            · split at h
              · have he : envelope = eraseKey (eraseKey fields "event") "status" := by
                  simp only [Option.some.injEq, Outcome.resolve.injEq] at h
                  exact h.symm
                subst he
                constructor
                · rw [lookupA_eraseKey_ne _ (by decide), lookupA_eraseKey_self]
                · exact lookupA_eraseKey_self _ _
              · simp at h
  | null => exact Option.noConfusion h
  | bool b => exact Option.noConfusion h
  | num n => exact Option.noConfusion h
  | str s => exact Option.noConfusion h
  | arr elems => exact Option.noConfusion h

/-- Witness for claim C2: the universal no-routing-fields part applied
at the concrete Success message. -/
theorem popup_call_grant_roundtrip_witness :
    lookupA [("app", JVal.str "42"), ("services", JVal.obj [])] "event" = none
    ∧ lookupA [("app", JVal.str "42"), ("services", JVal.obj [])] "status" = none :=
  popup_call_grant_roundtrip.2.2.2 "https://pass.ten31.com"
    (.obj [("event", .str "grant-response"), ("status", .str "Success"),
           ("app", .str "42"), ("services", .obj [])])
    [("app", .str "42"), ("services", .obj [])] rfl
/-- Claim C4: with the default filter, a qualifying message (endpoint
origin, matching event) whose status is the string Error or Unknown
settles nothing — the listener and close poll keep running — and a
trace of only such non-settling events followed by the close poll
detecting the popup closed rejects with the popup-closed error. -/
theorem popup_error_status_ignored (p : PendingResponse)
    (hf : p.responseFilter = none) :
    (∀ (fields : List (String × JVal)) (s : String),
      (match lookupA fields "event" with
       | some v => v.isStr p.responseEvent
       | none => false) = true →
      lookupA (eraseKey fields "event") "status" = some (.str s) →
      (s = "Error" ∨ s = "Unknown") →
      p.step (.message p.endpointOrigin (.obj fields)) = none)
    ∧ (∀ trace : List PopupEvent,
        (∀ ev ∈ trace, p.step ev = none) →
        p.run (trace ++ [.closeTick true]) = some .rejectClosed) := by
  constructor
  · intro fields s hev hst hs
    simp only [PendingResponse.step, PendingResponse.stepMessage, bne_self_eq_false,
      Bool.false_eq_true, if_false, hev, Bool.not_true, hst, hf]
    rw [if_pos]
    rcases hs with hs | hs <;> subst hs <;> simp [JVal.isStr]
  · intro trace htrace
    induction trace with
    | nil => rfl
    | cons ev rest ih =>
      have h1 : p.step ev = none := htrace ev (List.mem_cons_self ev rest)
      have h2 : ∀ e ∈ rest, p.step e = none := fun e he => htrace e (List.mem_cons_of_mem ev he)
      simp only [List.cons_append, PendingResponse.run, h1]
      exact ih h2

/-- Witness for claim C4 at concrete inputs: an Error-status message
is ignored, and the popup closing afterwards rejects with the
popup-closed error. -/
theorem popup_error_status_ignored_witness :
    c2Pending.step (.message "https://pass.ten31.com"
      (.obj [("event", .str "grant-response"), ("status", .str "Error")])) = none
    ∧ c2Pending.run
        ([.message "https://pass.ten31.com"
          (.obj [("event", .str "grant-response"), ("status", .str "Error")])]
          ++ [.closeTick true]) = some .rejectClosed := by
  have h := popup_error_status_ignored c2Pending rfl
  have hstep : c2Pending.step (.message "https://pass.ten31.com"
      (.obj [("event", .str "grant-response"), ("status", .str "Error")])) = none :=
    h.1 [("event", .str "grant-response"), ("status", .str "Error")] "Error"
      rfl rfl (Or.inl rfl)
  refine ⟨hstep, h.2 _ ?_⟩
  intro ev hev
  rw [List.mem_singleton] at hev
  subst hev
  exact hstep
/-- The usage conversion only ever throws the invalid-request
message. -/
theorem convertUsages_error_msg (us : List ServiceUsage) :
    ∀ (acc : List (String × JVal)) (e : String),
      convertUsages acc us = .error e → e = "TEN31 Pass request invalid" := by
  induction us with
  | nil => intro acc e h; exact Except.noConfusion h
  | cons u rest ih =>
    intro acc e h
    by_cases hacc : acc.any (fun kv => kv.1 == u.usageId)
    · simp only [convertUsages, hacc, if_true] at h
      exact (Except.error.inj h).symm
    · simp only [convertUsages, hacc, Bool.false_eq_true, if_false] at h
      exact ih _ e h

/-- A duplicate usage id in the list, or a usage id already present in
the accumulator, makes the usage conversion throw. -/
theorem convertUsages_error_of (us : List ServiceUsage) :
    ∀ acc : List (String × JVal),
      (¬ (us.map (fun u => u.usageId)).Nodup
        ∨ ∃ u ∈ us, acc.any (fun kv => kv.1 == u.usageId) = true) →
      convertUsages acc us = .error "TEN31 Pass request invalid" := by
  induction us with
  | nil =>
    intro acc h
    rcases h with h | ⟨u, hu, _⟩
    · exact absurd List.nodup_nil h
    · exact absurd hu (List.not_mem_nil u)
  | cons u rest ih =>
    intro acc h
    by_cases hacc : acc.any (fun kv => kv.1 == u.usageId)
    · simp only [convertUsages, hacc, if_true]
    · simp only [convertUsages, hacc, Bool.false_eq_true, if_false]
      apply ih
      rcases h with h | ⟨u2, hu2, hacc2⟩
      · rw [List.map_cons, List.nodup_cons] at h
        by_cases hmem : u.usageId ∈ rest.map (fun u => u.usageId)
        · obtain ⟨u3, hu3, heq⟩ := List.mem_map.1 hmem
          refine Or.inr ⟨u3, hu3, ?_⟩
          rw [List.any_append, Bool.or_eq_true]
          right
          simp [heq]
        · left
          intro hnd
          exact h ⟨hmem, hnd⟩
      · rcases List.mem_cons.1 hu2 with hu2 | hu2
        · subst hu2
          exact absurd hacc2 (by simp [hacc])
        · refine Or.inr ⟨u2, hu2, ?_⟩
          rw [List.any_append, Bool.or_eq_true]
          exact Or.inl hacc2

/-- A duplicate service id, a service with duplicate usage ids, or a
service id already present in the accumulator, makes the service
conversion throw. -/
theorem convertServices_error_of (ss : List ServiceRequest) :
    ∀ acc : List (String × JVal),
      (¬ (ss.map (fun s => s.serviceId)).Nodup
        ∨ (∃ s ∈ ss, ¬ ((s.usages.getD []).map (fun u => u.usageId)).Nodup)
        ∨ ∃ s ∈ ss, acc.any (fun kv => kv.1 == s.serviceId) = true) →
      convertServices acc ss = .error "TEN31 Pass request invalid" := by
  induction ss with
  | nil =>
    intro acc h
    rcases h with h | ⟨s, hs, _⟩ | ⟨s, hs, _⟩
    · exact absurd List.nodup_nil h
    · exact absurd hs (List.not_mem_nil s)
    · exact absurd hs (List.not_mem_nil s)
  | cons s rest ih =>
    intro acc h
    by_cases hacc : acc.any (fun kv => kv.1 == s.serviceId)
    · simp only [convertServices, hacc, if_true]
    · simp only [convertServices, hacc, Bool.false_eq_true, if_false]
      by_cases hbad : ¬ ((s.usages.getD []).map (fun u => u.usageId)).Nodup
      · rw [convertUsages_error_of _ [] (Or.inl hbad)]
      · cases hcu : convertUsages [] (s.usages.getD []) with
        | error e =>
          rw [convertUsages_error_msg _ [] e hcu]
        | ok us =>
          apply ih
          rcases h with h | ⟨s2, hs2, hbad2⟩ | ⟨s2, hs2, hacc2⟩
          · rw [List.map_cons, List.nodup_cons] at h
            by_cases hmem : s.serviceId ∈ rest.map (fun s => s.serviceId)
            · obtain ⟨s3, hs3, heq⟩ := List.mem_map.1 hmem
              refine Or.inr (Or.inr ⟨s3, hs3, ?_⟩)
              rw [List.any_append, Bool.or_eq_true]
              right
              simp [heq]
            · left
              intro hnd
              exact h ⟨hmem, hnd⟩
          · rcases List.mem_cons.1 hs2 with hs2 | hs2
            · subst hs2
              exact absurd hbad2 (by simp [hbad])
            · exact Or.inr (Or.inl ⟨s2, hs2, hbad2⟩)
          · rcases List.mem_cons.1 hs2 with hs2 | hs2
            · subst hs2
              exact absurd hacc2 (by simp [hacc])
            · refine Or.inr (Or.inr ⟨s2, hs2, ?_⟩)
              rw [List.any_append, Bool.or_eq_true]
              exact Or.inl hacc2

/-- Claim C9: a service list with two entries sharing a service id, or
with one entry whose usages share a usage id, makes `requestGrants`
throw `TEN31 Pass request invalid` synchronously; the error result
carries no effect trace, so no popup is opened, no request submitted
and no recoverable state stored. -/
theorem requestGrants_duplicate_invalid (endpoint appId : String)
    (services : List ServiceRequest) (asPopup : Bool) (opts : GrantOptions)
    (hdup : ¬ (services.map (fun s => s.serviceId)).Nodup
      ∨ ∃ s ∈ services, ¬ ((s.usages.getD []).map (fun u => u.usageId)).Nodup) :
    Ten31PassApi.requestGrants endpoint appId services asPopup opts
      = .error "TEN31 Pass request invalid" := by
  have h : convertServices [] services = .error "TEN31 Pass request invalid" := by
    apply convertServices_error_of
    rcases hdup with h | h
    · exact Or.inl h
    · exact Or.inr (Or.inl h)
  simp only [Ten31PassApi.requestGrants, h]

/-- Witness for claim C9 at concrete inputs: two requests for the same
service id. -/
theorem requestGrants_duplicate_invalid_witness :
    Ten31PassApi.requestGrants "https://pass.ten31.com/" "42"
      [⟨"svc", none⟩, ⟨"svc", none⟩] true {}
      = .error "TEN31 Pass request invalid" :=
  requestGrants_duplicate_invalid "https://pass.ten31.com/" "42"
    [⟨"svc", none⟩, ⟨"svc", none⟩] true {} (Or.inl (by decide))
/-- A call never changes the recorded referrer origin. -/
theorem getRedirectResponse_referrer (event : String) (ks opt : List KeySpec)
    (origin : Option String) (st : RedirectSt) :
    (RedirectBehavior.getRedirectResponse event ks opt origin st).state.referrerOrigin
      = st.referrerOrigin := by
  unfold RedirectBehavior.getRedirectResponse
  split
  · rfl
  · split
    · apply statusOutcome_referrer
    · rw [cacheOutcome_state]

/-- The origin gate only reads the referrer origin. -/
theorem gatePasses_eq_of_referrer (origin : Option String) (st1 st2 : RedirectSt)
    (h : st1.referrerOrigin = st2.referrerOrigin) :
    gatePasses origin st1 = gatePasses origin st2 := by
  unfold gatePasses
  rw [h]

/-- The status push preserves permutation equivalence. -/
theorem pushStatus_perm {req1 req2 : List KeySpec} (hp : req1.Perm req2) :
    (pushStatus req1).Perm (pushStatus req2) := by
  unfold pushStatus
  by_cases h : KeySpec.exact "status" ∈ req1
  · rw [if_pos h, if_pos (hp.mem_iff.1 h)]
    exact hp
  · rw [if_neg h, if_neg (fun hm => h (hp.mem_iff.2 hm))]
    exact hp.append (List.Perm.refl _)

/-- The Response Identity depends on the field specs only up to
ordering: the stringified specs are sorted before being joined. -/
theorem responseId_perm (event : String) {req1 req2 opt1 opt2 : List KeySpec}
    (hp : req1.Perm req2) (ho : opt1.Perm opt2) :
    responseId event req1 opt1 = responseId event req2 opt2 := by
  unfold responseId
  rw [sortStrings_eq_of_perm (hp.map KeySpec.print),
    sortStrings_eq_of_perm (ho.map KeySpec.print)]
  have hemp : opt1.isEmpty = opt2.isEmpty := by
    have hlen := ho.length_eq
    cases opt1 <;> cases opt2 <;> simp_all
  rw [hemp]

/-- Reduction of a gate-passing call with a live match to the
status-validation outcome. -/
theorem getRedirectResponse_live (event : String) (ks opt : List KeySpec)
    (origin : Option String) (st : RedirectSt) (b : Bool) (q : List Char)
    (hg : gatePasses origin st = true)
    (hl : firstLive event st = some (b, q)) :
    RedirectBehavior.getRedirectResponse event ks opt origin st
      = statusOutcome st (pushStatus ks) (responseId event (pushStatus ks) opt) b
          (extractScan (pushStatus ks) opt q)
          (lookupA (extractScan (pushStatus ks) opt q).response "status") := by
  simp only [RedirectBehavior.getRedirectResponse, hg, Bool.not_true, Bool.false_eq_true,
    if_false, hl]

/-- Reduction of a gate-passing call with no live match to the cache
fallback. -/
theorem getRedirectResponse_fallback (event : String) (ks opt : List KeySpec)
    (origin : Option String) (st : RedirectSt)
    (hg : gatePasses origin st = true)
    (hl : firstLive event st = none) :
    RedirectBehavior.getRedirectResponse event ks opt origin st
      = cacheOutcome st (pushStatus ks)
          (lookupA st.histCache (responseId event (pushStatus ks) opt)) := by
  simp only [RedirectBehavior.getRedirectResponse, hg, Bool.not_true, Bool.false_eq_true,
    if_false, hl]

/-- Whenever a call past the gate returns an envelope, the history
cache of the resulting state holds that envelope under the Response
Identity of the call: a live success stores it there, and a cache hit
read it from there. -/
theorem getRedirectResponse_cached (event : String) (ks opt : List KeySpec)
    (origin : Option String) (st : RedirectSt) (r : List (String × String))
    (hg : gatePasses origin st = true)
    (h1 : (RedirectBehavior.getRedirectResponse event ks opt origin st).result
      = .ok (some r)) :
    lookupA (RedirectBehavior.getRedirectResponse event ks opt origin st).state.histCache
      (responseId event (pushStatus ks) opt) = some r := by
  cases hfl : firstLive event st with
  | some bq =>
    obtain ⟨b, q⟩ := bq
    rw [getRedirectResponse_live event ks opt origin st b q hg hfl] at h1 ⊢
    cases hs : lookupA (extractScan (pushStatus ks) opt q).response "status" with
    | none =>
      rw [hs] at h1
      simp [statusOutcome] at h1
    | some s =>
      rw [hs] at h1
      simp only [statusOutcome] at h1 ⊢
      by_cases hcond : s = "" ∨ (s = "Success" ∧ (extractScan (pushStatus ks) opt q).missing ≠ [])
      · rw [if_pos hcond] at h1
        simp at h1
      · rw [if_neg hcond] at h1
        rw [if_neg hcond]
        by_cases hns : s ≠ "Success"
        · rw [if_pos hns] at h1
          simp at h1
        · rw [if_neg hns] at h1
          rw [if_neg hns]
          simp only [Except.ok.injEq, Option.some.injEq] at h1
          rw [lookupA_assocSet_self, h1]
  | none =>
    rw [getRedirectResponse_fallback event ks opt origin st hg hfl] at h1 ⊢
    cases hc : lookupA st.histCache (responseId event (pushStatus ks) opt) with
    | none =>
      rw [hc] at h1
      simp [cacheOutcome] at h1
    | some r0 =>
      rw [hc] at h1
      simp only [cacheOutcome, Except.ok.injEq, Option.some.injEq] at h1
      rw [cacheOutcome_state, hc, h1]
/-- Claim C6, counterexample: cleaning removes only the first
`event=...` marker, so the address `?event=e&event=e&status=Success`
still carries a live marker after a successful first extraction; the
second call then reprocesses the residue and throws the
malformed-response error instead of returning the cached envelope. -/
theorem c6_idempotent_counterexample :
    (RedirectBehavior.getRedirectResponse "e" [] [] none
      ⟨"?event=e&event=e&status=Success", "", none, []⟩).result
      = .ok (some [("status", "Success")])
    ∧ (RedirectBehavior.getRedirectResponse "e" [] [] none
        ⟨"?event=e&event=e&status=Success", "", none, []⟩).state.search = "?event=e"
    ∧ (RedirectBehavior.getRedirectResponse "e" [] [] none
        (RedirectBehavior.getRedirectResponse "e" [] [] none
          ⟨"?event=e&event=e&status=Success", "", none, []⟩).state).result
      = .error .malformed := by
  refine ⟨rfl, by decide, rfl⟩

/-- Claim C6, amended: after a call returns an envelope, every
subsequent call with the same event, equal required specs and equal
optional specs up to ordering, run against the resulting state,
returns the same envelope — provided the cleaned address no longer
contains a live event marker for that event (the cleaning removes only
the first marker, so a duplicated marker can survive it). -/
theorem getRedirectResponse_idempotent (event : String)
    (req1 req2 opt1 opt2 : List KeySpec) (origin : Option String)
    (st : RedirectSt) (r : List (String × String))
    (h1 : (RedirectBehavior.getRedirectResponse event req1 opt1 origin st).result
      = .ok (some r))
    (h2 : firstLive event
      (RedirectBehavior.getRedirectResponse event req1 opt1 origin st).state = none)
    (hp : req1.Perm req2) (ho : opt1.Perm opt2) :
    (RedirectBehavior.getRedirectResponse event req2 opt2 origin
      (RedirectBehavior.getRedirectResponse event req1 opt1 origin st).state).result
      = .ok (some r) := by
  by_cases hg : gatePasses origin st = true
  · have hrid : responseId event (pushStatus req2) opt2
        = responseId event (pushStatus req1) opt1 :=
      responseId_perm event (pushStatus_perm hp.symm) ho.symm
    have hg2 : gatePasses origin
        (RedirectBehavior.getRedirectResponse event req1 opt1 origin st).state = true := by
      rw [gatePasses_eq_of_referrer origin _ st
        (getRedirectResponse_referrer event req1 opt1 origin st)]
      exact hg
    have hcache := getRedirectResponse_cached event req1 opt1 origin st r hg h1
    rw [getRedirectResponse_fallback event req2 opt2 origin _ hg2 h2, hrid, hcache]
    rfl
  · have hgf : gatePasses origin st = false := by
      cases hgg : gatePasses origin st
      · rfl
      · exact absurd hgg hg
    have hnone : (RedirectBehavior.getRedirectResponse event req1 opt1 origin st).result
        = .ok none := by
      simp only [RedirectBehavior.getRedirectResponse, hgf, Bool.not_false, if_true]
    rw [hnone] at h1
    simp at h1

/-- Witness for the amended claim C6 at concrete inputs. -/
theorem getRedirectResponse_idempotent_witness :
    (RedirectBehavior.getRedirectResponse "ev" [KeySpec.patt "grant-for-app-"] [] none
      (RedirectBehavior.getRedirectResponse "ev" [KeySpec.patt "grant-for-app-"] [] none
        ⟨"?event=ev&status=Success&grant-for-app-7=g", "", none, []⟩).state).result
      = .ok (some [("status", "Success"), ("grant-for-app-7", "g")]) :=
  getRedirectResponse_idempotent "ev" [KeySpec.patt "grant-for-app-"]
    [KeySpec.patt "grant-for-app-"] [] [] none
    ⟨"?event=ev&status=Success&grant-for-app-7=g", "", none, []⟩
    [("status", "Success"), ("grant-for-app-7", "g")] rfl rfl
    (List.Perm.refl _) (List.Perm.refl _)
